import Mathlib

/-!
Shallow embedding of the elevator dispatch core (src/app/controller.py,
src/app/models/__init__.py, src/app/managers.py) and proofs about the
per-tick handlers, the ride scheduler queries and ride creation.

Modelling conventions:
* Database rows become Lean structures; the shared ride pool is a
  `List Ride`.  SQLAlchemy comparisons against a bound parameter follow
  SQL three-valued logic: `col == param` never matches when either side
  is NULL (`sqlEqId`, `sqlEqFloor`), while the literal `col == None`
  renders as `IS NULL` and is modelled as `trip_id == none`.
* Python `monotonic_ns` timestamps and the accumulated timers are
  unbounded integers, so they are `Int` here; `elapsed` is the integer
  `now - last_tick` of one tick.
* Python truthiness of an `int` is `!= 0`; of an `Optional` row it is
  `Option.isSome`; `x or y` returns `x` when `x` is truthy, else `y`.
* List indexing `doors[floor]` follows Python semantics: negative
  indices address from the end, anything else out of range raises
  `IndexError`, modelled by `pyListGet` returning `none`.
* The row-level locks taken by `.with_for_update()` serialise competing
  pickup/dropoff transactions; concurrent claim attempts are therefore
  modelled as the sequential composition of the two atomic updates.
-/

namespace ElevatorApp

/-- `Direction` enum of src/app/models/__init__.py (NONE = 0, UP = 1, DOWN = -1). -/
inductive Direction where
  | none
  | up
  | down
deriving DecidableEq, Repr

/-- The integer value backing each `Direction` member. -/
def Direction.value : Direction → Int
  | .none => 0
  | .up => 1
  | .down => -1

/-- `Direction(i)` for the values that occur in the controller (`i ∈ {-1, 0, 1}`). -/
def Direction.ofValue (i : Int) : Direction :=
  if i = 1 then .up else if i = -1 then .down else .none

/-- `Direction.resolve`: `diff = dropoff - pickup; cls(-1 if diff < 0 else 1 if diff else 0)`. -/
def Direction.resolve (pickup dropoff : Int) : Direction :=
  let diff := dropoff - pickup
  if diff < 0 then .down else if diff ≠ 0 then .up else .none

/-- `Status` enum: the seven controller states. -/
inductive Status where
  | idle
  | moving
  | docking
  | docked
  | undocking
  | undocked
  | disabled
deriving DecidableEq, Repr

/-- `DoorState` enum; `opened` models the member `OPEN` (`open` is a Lean keyword). -/
inductive DoorState where
  | closed
  | opening
  | opened
  | closing
deriving DecidableEq, Repr

/-- `RideStatus` enum. -/
inductive RideStatus where
  | queued
  | enroute
  | arrived
  | cancelled
deriving DecidableEq, Repr

/-- `TripStatus` enum. -/
inductive TripStatus where
  | draft
  | enroute
  | stopped
  | arrived
  | cancelled
deriving DecidableEq, Repr

/-- A `ride` row.  `created_at` is the creation timestamp used for FIFO ordering. -/
structure Ride where
  id : Nat
  status : RideStatus
  pickup : Int
  dropoff : Option Int
  direction : Direction
  trip_id : Option Nat
  created_at : Nat
deriving DecidableEq, Repr

/-- A `trip` row (fields the controller reads and writes). -/
structure Trip where
  id : Nat
  status : TripStatus
deriving DecidableEq, Repr

/-- An `elevator` row (fields the controller reads). -/
structure Elevator where
  doors : List Nat
  speed_per_floor : Int
  docking_speed : Int
  time_on_dock : Int
deriving DecidableEq, Repr

/-- An `elevator_state` row.  `trip` is the joined `Trip` row for `trip_id`. -/
structure ElevatorState where
  status : Status
  door_state : DoorState
  direction : Direction
  floor : Int
  floor_time : Int
  door_time : Int
  docked_time : Int
  trip_id : Option Nat
  trip : Option Trip
deriving DecidableEq, Repr

/-- SQL `col = param` on nullable id columns: NULL on either side never matches. -/
def sqlEqId : Option Nat → Option Nat → Bool
  | some a, some b => a == b
  | _, _ => false

/-- SQL `col = param` on the nullable `dropoff` column against an integer parameter. -/
def sqlEqFloor : Option Int → Int → Bool
  | some v, x => v == x
  | _, _ => false

/-- Python list indexing: negative indices wrap once, out-of-range is `IndexError` (`none`). -/
def pyListGet (l : List Nat) (i : Int) : Option Nat :=
  if 0 ≤ i then l.get? i.toNat
  else if 0 ≤ (l.length : Int) + i then l.get? ((l.length : Int) + i).toNat
  else none

/-- The `current` count query shared by `_do_pickups` and `_should_dock_to_floor`:
`count(*) WHERE trip_id = state.trip_id AND status IN (ENROUTE, QUEUED)`. -/
def tripActiveCount (tid : Option Nat) (db : List Ride) : Nat :=
  db.countP fun r =>
    sqlEqId r.trip_id tid && (r.status == RideStatus.enroute || r.status == RideStatus.queued)

/-- `if not not (await self.db.scalar(current)): args = (Ride.direction == state.direction,)`:
the direction filter is added exactly when the count is non-zero. -/
def directionFilterActive (tid : Option Nat) (db : List Ride) : Bool :=
  tripActiveCount tid db != 0

/-- The pickup WHERE clause of `_do_pickups`:
`trip_id IS NULL AND status = QUEUED AND pickup = state.floor [AND direction = state.direction]`. -/
def pickupPred (st : ElevatorState) (db : List Ride) (r : Ride) : Bool :=
  r.trip_id == none && r.status == RideStatus.queued && r.pickup == st.floor &&
    (!directionFilterActive st.trip_id db || r.direction == st.direction)

/-- `_do_pickups`: asserts `trip and trip.status is STOPPED` (`none` = AssertionError),
then claims every row matched by `pickupPred` under the row lock:
`ride.trip = trip; ride.status = ENROUTE`. -/
def doPickups (st : ElevatorState) (db : List Ride) : Option (List Ride) :=
  match st.trip with
  | Option.none => none
  | some trip =>
    if trip.status == TripStatus.stopped then
      some (db.map fun r =>
        if pickupPred st db r then
          { r with trip_id := some trip.id, status := RideStatus.enroute }
        else r)
    else none

/-- The dropoff WHERE clause of `_do_dropoffs`:
`trip_id = state.trip_id AND dropoff = floor AND status = ENROUTE`. -/
def dropoffPred (st : ElevatorState) (r : Ride) : Bool :=
  sqlEqId r.trip_id st.trip_id && sqlEqFloor r.dropoff st.floor &&
    r.status == RideStatus.enroute

/-- `_do_dropoffs`: asserts `trip and trip.status is STOPPED` (`none` = AssertionError),
then sets `status = ARRIVED` on every row matched by `dropoffPred` under the row lock. -/
def doDropoffs (st : ElevatorState) (db : List Ride) : Option (List Ride) :=
  match st.trip with
  | Option.none => none
  | some trip =>
    if trip.status == TripStatus.stopped then
      some (db.map fun r =>
        if dropoffPred st r then { r with status := RideStatus.arrived } else r)
    else none

/-- `_should_dock_to_floor`.  `none` models the `IndexError` raised by
`self.elevator.doors[floor]` when `floor` is out of range; when the door mask is
falsy at `floor` the Python function falls through and returns `None`, which the
caller treats as false (`some false` here). -/
def shouldDockToFloor (e : Elevator) (st : ElevatorState) (db : List Ride) : Option Bool :=
  match pyListGet e.doors st.floor with
  | Option.none => none
  | some d =>
    if d != 0 then
      some (db.any fun r =>
        (r.trip_id == none && r.status == RideStatus.queued && r.pickup == st.floor &&
          (!directionFilterActive st.trip_id db || r.direction == st.direction))
        || (sqlEqId r.trip_id st.trip_id && sqlEqFloor r.dropoff st.floor &&
              r.status == RideStatus.enroute))
    else some false

/-- Result of one `_run_moving` tick: the new state, or the state as already
mutated when `_should_dock_to_floor` raises `IndexError` (the surrounding
transaction then rolls back).  Both constructors carry the ride table, which
`_run_moving` never mutates. -/
inductive MovingOutcome where
  | ok (st : ElevatorState) (db : List Ride)
  | indexError (st : ElevatorState) (db : List Ride)
deriving DecidableEq, Repr

/-- The ride table after the `_run_moving` tick. -/
def MovingOutcome.rides : MovingOutcome → List Ride
  | .ok _ db => db
  | .indexError _ db => db

/-- `_run_moving`: `remainder = max(speed - state.floor_time + elapsed, 0)`; while
positive accumulate `floor_time += elapsed`; otherwise advance the floor
(`floor == len(doors)` forces DOWN, `not floor` forces UP, else `floor += direction.value`),
reset `floor_time`, and enter DOCKING iff `_should_dock_to_floor()` is truthy. -/
def runMoving (e : Elevator) (st : ElevatorState) (db : List Ride) (elapsed : Int) :
    MovingOutcome :=
  let speed := e.speed_per_floor
  let remainder := max (speed - st.floor_time + elapsed) 0
  if remainder > 0 then
    .ok { st with floor_time := st.floor_time + elapsed } db
  else
    let st1 :=
      if st.floor == (e.doors.length : Int) then
        { st with floor := st.floor - 1, direction := Direction.down }
      else if st.floor == 0 then
        { st with floor := st.floor + 1, direction := Direction.up }
      else
        { st with floor := st.floor + st.direction.value }
    let st2 := { st1 with floor_time := 0 }
    match shouldDockToFloor e st2 db with
    | Option.none => .indexError st2 db
    | some true => .ok { st2 with status := Status.docking } db
    | some false => .ok st2 db

/-- The WHERE clause of `_run_idle`: `trip_id IS NULL AND status = QUEUED`. -/
def unclaimedQueued (r : Ride) : Bool :=
  r.trip_id == none && r.status == RideStatus.queued

/-- `ORDER BY created_at ... .first()`: the unclaimed QUEUED ride with the least
`created_at` (earliest row wins ties). -/
def oldestUnclaimed (db : List Ride) : Option Ride :=
  (db.filter unclaimedQueued).foldl
    (fun acc r =>
      match acc with
      | Option.none => some r
      | some b => if r.created_at < b.created_at then some r else some b)
    none

/-- `_run_idle`: fetches the oldest unclaimed QUEUED ride's `pickup` and guards on
`if pickup := ...first():` — the walrus guard takes the truthy branch only when the
fetched pickup is non-`None` AND non-zero.  On the truthy branch it creates a DRAFT
`Trip` (`newTripId` is the id the store assigns; `state.trip_id` is filled from it at
the tick-end flush), sets MOVING and `direction = Direction.resolve(state.floor, pickup)`. -/
def runIdle (st : ElevatorState) (db : List Ride) (newTripId : Nat) : ElevatorState :=
  match (oldestUnclaimed db).map Ride.pickup with
  | some p =>
    if p != 0 then
      { st with
        trip := some { id := newTripId, status := TripStatus.draft },
        trip_id := some newTripId,
        status := Status.moving,
        direction := Direction.resolve st.floor p }
    else st
  | Option.none => st

/-- `_run_undocked`: collects the directions of this trip's ENROUTE rides; none →
IDLE; otherwise MOVING, reversing `direction` (`Direction(state.direction.value * -1)`)
when the current direction is not among them. -/
def runUndocked (st : ElevatorState) (db : List Ride) : ElevatorState :=
  let dirs := (db.filter fun r =>
    sqlEqId r.trip_id st.trip_id && r.status == RideStatus.enroute).map Ride.direction
  if dirs.isEmpty then { st with status := Status.idle }
  else if dirs.contains st.direction then { st with status := Status.moving }
  else
    { st with
      status := Status.moving,
      direction := Direction.ofValue (st.direction.value * -1) }

/-- Result of one `_run_docked` tick.  `attrError` models the `AttributeError`
raised by `trip.status` when `state.trip` is `None`; `assertError` models an
`AssertionError` from `_do_pickups`/`_do_dropoffs`. -/
inductive DockedOutcome where
  | ok (st : ElevatorState) (db : List Ride)
  | attrError
  | assertError
deriving DecidableEq, Repr

/-- Whether the `_run_docked` tick died on a helper's assertion. -/
def DockedOutcome.isAssertError : DockedOutcome → Bool
  | .assertError => true
  | _ => false

/-- The dwell accounting at the end of `_run_docked`:
`remainder = max(delay - state.docked_time + elapsed, 0)`; accumulate while positive,
else reset, enter UNDOCKING and set `trip.status = ENROUTE`. -/
def dockedTimer (e : Elevator) (st : ElevatorState) (trip : Trip) (elapsed : Int) :
    ElevatorState :=
  let remainder := max (e.time_on_dock - st.docked_time + elapsed) 0
  if remainder > 0 then { st with docked_time := st.docked_time + elapsed }
  else
    { st with
      docked_time := 0,
      status := Status.undocking,
      trip := some { trip with status := TripStatus.enroute } }

/-- `_run_docked`: when `trip.status in (DRAFT, ENROUTE)` it first sets
`trip.status = STOPPED` and runs `gather(self._do_dropoffs(), self._do_pickups())`
(the two helpers share one session; modelled in `gather` argument order), then does
the dwell accounting. -/
def runDocked (e : Elevator) (st : ElevatorState) (db : List Ride) (elapsed : Int) :
    DockedOutcome :=
  match st.trip with
  | Option.none => .attrError
  | some trip =>
    if trip.status == TripStatus.draft || trip.status == TripStatus.enroute then
      let trip2 := { trip with status := TripStatus.stopped }
      let st2 := { st with trip := some trip2 }
      match doDropoffs st2 db with
      | Option.none => .assertError
      | some db1 =>
        match doPickups st2 db1 with
        | Option.none => .assertError
        | some db2 => .ok (dockedTimer e st2 trip2 elapsed) db2
    else .ok (dockedTimer e st trip elapsed) db

/-- Python `dropoff or pickup` in `RideManager.create_ride`: `or` returns the left
operand when it is truthy (non-`None` and non-zero), else the right one. -/
def pyOrIntOpt (dropoff : Option Int) (pickup : Int) : Int :=
  match dropoff with
  | some v => if v != 0 then v else pickup
  | Option.none => pickup

/-- `RideManager.create_ride` (src/app/managers.py): resolves the direction from
`(pickup, dropoff or pickup)` when not given, raises `ValueError` on direction NONE,
else builds a QUEUED ride (id and `created_at` are placeholders the store assigns). -/
def create_ride (pickup : Int) (dropoff : Option Int) (direction : Option Direction) :
    Except String Ride :=
  let dir :=
    match direction with
    | some d => d
    | Option.none => Direction.resolve pickup (pyOrIntOpt dropoff pickup)
  if dir == Direction.none then Except.error "Invalid destination"
  else
    Except.ok
      { id := 0, status := RideStatus.queued, pickup := pickup, dropoff := dropoff,
        direction := dir, trip_id := none, created_at := 0 }

/-! Concrete rows used by the closed theorems and witnesses below. -/

/-- A 5-floor building's elevator with every door accessible. -/
def fiveFloorElevator : Elevator :=
  { doors := [1, 1, 1, 1, 1], speed_per_floor := 5, docking_speed := 2, time_on_dock := 3 }

/-- MOVING state at the top floor (floor 4 of 5) heading UP, threshold long passed. -/
def topFloorUpState : ElevatorState :=
  { status := Status.moving, door_state := DoorState.closed, direction := Direction.up,
    floor := 4, floor_time := 100, door_time := 0, docked_time := 0,
    trip_id := some 1, trip := some { id := 1, status := TripStatus.enroute } }

/-- MOVING state mid-building with `floor_time` exactly at the `speed_per_floor`
threshold (5) — by the claim the floor should now advance. -/
def thresholdReachedState : ElevatorState :=
  { status := Status.moving, door_state := DoorState.closed, direction := Direction.up,
    floor := 2, floor_time := 5, door_time := 0, docked_time := 0,
    trip_id := some 1, trip := some { id := 1, status := TripStatus.enroute } }

/-- A second copy of the top-floor scenario for the C3 tick description. -/
def topFloorUpState2 : ElevatorState :=
  { status := Status.moving, door_state := DoorState.closed, direction := Direction.up,
    floor := 4, floor_time := 50, door_time := 0, docked_time := 0,
    trip_id := some 2, trip := some { id := 2, status := TripStatus.enroute } }

/-- A pending unclaimed QUEUED ride whose pickup floor is 0. -/
def groundFloorRide : Ride :=
  { id := 1, status := RideStatus.queued, pickup := 0, dropoff := some 3,
    direction := Direction.up, trip_id := none, created_at := 0 }

/-- An elevator idling at floor 0 with no trip. -/
def idleAtZeroState : ElevatorState :=
  { status := Status.idle, door_state := DoorState.closed, direction := Direction.none,
    floor := 0, floor_time := 0, door_time := 0, docked_time := 0,
    trip_id := none, trip := none }

/-- A pending unclaimed QUEUED ride whose pickup floor equals the elevator's floor 3. -/
def samefloorRide : Ride :=
  { id := 1, status := RideStatus.queued, pickup := 3, dropoff := some 5,
    direction := Direction.up, trip_id := none, created_at := 0 }

/-- An elevator idling at floor 3 with no trip. -/
def idleAtThreeState : ElevatorState :=
  { status := Status.idle, door_state := DoorState.closed, direction := Direction.none,
    floor := 3, floor_time := 0, door_time := 0, docked_time := 0,
    trip_id := none, trip := none }

/-- Elevator A, DOCKED at floor 2 with stopped trip 10 (concurrency scenario). -/
def claimStateA : ElevatorState :=
  { status := Status.docked, door_state := DoorState.opened, direction := Direction.up,
    floor := 2, floor_time := 0, door_time := 0, docked_time := 0,
    trip_id := some 10, trip := some { id := 10, status := TripStatus.stopped } }

/-- Elevator B, DOCKED at floor 2 with stopped trip 20 (concurrency scenario). -/
def claimStateB : ElevatorState :=
  { status := Status.docked, door_state := DoorState.opened, direction := Direction.up,
    floor := 2, floor_time := 0, door_time := 0, docked_time := 0,
    trip_id := some 20, trip := some { id := 20, status := TripStatus.stopped } }

/-- The unclaimed QUEUED ride at floor 2 both elevators race for. -/
def contestedRide : Ride :=
  { id := 1, status := RideStatus.queued, pickup := 2, dropoff := some 4,
    direction := Direction.up, trip_id := none, created_at := 0 }

/-- `contestedRide` once claimed by elevator A's trip 10. -/
def contestedRideClaimed : Ride :=
  { contestedRide with trip_id := some 10, status := RideStatus.enroute }

/-- A 2-floor elevator for the dock-eligibility witness. -/
def twoFloorElevator : Elevator :=
  { doors := [1, 1], speed_per_floor := 5, docking_speed := 2, time_on_dock := 3 }

/-- MOVING state at floor 1 with fresh trip 5 (dock-eligibility witness). -/
def movingAtOneState : ElevatorState :=
  { status := Status.moving, door_state := DoorState.closed, direction := Direction.up,
    floor := 1, floor_time := 0, door_time := 0, docked_time := 0,
    trip_id := some 5, trip := some { id := 5, status := TripStatus.draft } }

/-- An unclaimed QUEUED ride waiting at floor 1, heading UP. -/
def waitingAtOneRide : Ride :=
  { id := 1, status := RideStatus.queued, pickup := 1, dropoff := some 0,
    direction := Direction.up, trip_id := none, created_at := 0 }

/-- DOCKED state at floor 2, trip 5 STOPPED, heading UP (pickup/dropoff witnesses). -/
def dockedAtTwoState : ElevatorState :=
  { status := Status.docked, door_state := DoorState.opened, direction := Direction.up,
    floor := 2, floor_time := 0, door_time := 0, docked_time := 0,
    trip_id := some 5, trip := some { id := 5, status := TripStatus.stopped } }

/-- A ride already aboard trip 5 (ENROUTE, direction UP), making the trip non-empty. -/
def aboardRide : Ride :=
  { id := 2, status := RideStatus.enroute, pickup := 0, dropoff := some 4,
    direction := Direction.up, trip_id := some 5, created_at := 0 }

/-- An unclaimed QUEUED ride at floor 2 heading UP (same direction as the trip). -/
def sameDirRide : Ride :=
  { id := 3, status := RideStatus.queued, pickup := 2, dropoff := some 4,
    direction := Direction.up, trip_id := none, created_at := 1 }

/-- DOCKED state at floor 4, trip 5 STOPPED, heading UP (dropoff witness). -/
def dockedAtFourState : ElevatorState :=
  { status := Status.docked, door_state := DoorState.opened, direction := Direction.up,
    floor := 4, floor_time := 0, door_time := 0, docked_time := 0,
    trip_id := some 5, trip := some { id := 5, status := TripStatus.stopped } }

/-- A ride aboard trip 5 whose dropoff is floor 4. -/
def arrivingRide : Ride :=
  { id := 2, status := RideStatus.enroute, pickup := 0, dropoff := some 4,
    direction := Direction.up, trip_id := some 5, created_at := 0 }

/-! Helper lemmas about the embedded queries. -/

theorem sqlEqId_some_iff (o : Option Nat) (t : Nat) :
    sqlEqId o (some t) = true ↔ o = some t := by
  cases o <;> simp [sqlEqId]

theorem sqlEqFloor_iff (o : Option Int) (x : Int) :
    sqlEqFloor o x = true ↔ o = some x := by
  cases o <;> simp [sqlEqFloor]

theorem directionFilterActive_iff (tid : Nat) (db : List Ride) :
    directionFilterActive (some tid) db = true ↔
      ∃ q ∈ db, q.trip_id = some tid ∧
        (q.status = RideStatus.enroute ∨ q.status = RideStatus.queued) := by
  simp only [directionFilterActive, tripActiveCount, bne_iff_ne, ne_eq,
    ← Nat.pos_iff_ne_zero, List.countP_pos_iff, Bool.and_eq_true, Bool.or_eq_true,
    beq_iff_eq, sqlEqId_some_iff]

theorem doPickups_eq_map (st : ElevatorState) (db : List Ride) (t : Trip)
    (ht : st.trip = some t) (hs : t.status = TripStatus.stopped) :
    doPickups st db =
      some (db.map fun r =>
        if pickupPred st db r then
          { r with trip_id := some t.id, status := RideStatus.enroute }
        else r) := by
  simp [doPickups, ht, hs]

theorem doDropoffs_eq_map (st : ElevatorState) (db : List Ride) (t : Trip)
    (ht : st.trip = some t) (hs : t.status = TripStatus.stopped) :
    doDropoffs st db =
      some (db.map fun r =>
        if dropoffPred st r then { r with status := RideStatus.arrived } else r) := by
  simp [doDropoffs, ht, hs]

theorem pickupPred_eq_false_of_claimed (st : ElevatorState) (db : List Ride) (r : Ride)
    (j : Nat) (h : r.trip_id = some j) : pickupPred st db r = false := by
  simp [pickupPred, h]

theorem dropoffPred_iff (st : ElevatorState) (r : Ride) (t : Trip)
    (hcoh : st.trip_id = some t.id) :
    dropoffPred st r = true ↔
      r.trip_id = some t.id ∧ r.dropoff = some st.floor ∧ r.status = RideStatus.enroute := by
  simp [dropoffPred, hcoh, sqlEqId_some_iff, sqlEqFloor_iff, and_assoc]

theorem runMoving_rides (e : Elevator) (st : ElevatorState) (db : List Ride)
    (elapsed : Int) : (runMoving e st db elapsed).rides = db := by
  unfold runMoving
  dsimp only
  split
  · rfl
  · split <;> rfl

/-! Theorems settling the claims. -/

/-- C1: the spec invariant says `floor` stays within `[0, floor_count-1]` and that a
MOVING tick starting in range stays in range.  The clamp in `_run_moving` fires at
`floor == len(doors)` (= floor_count), not at the top floor, so advancing UP from
floor 4 of a 5-floor building yields floor 5 — outside the range — after which the
dock check's `doors[5]` raises IndexError. -/
theorem C1_moving_escapes_floor_range :
    runMoving fiveFloorElevator topFloorUpState [] 1 =
      MovingOutcome.indexError { topFloorUpState with floor := 5, floor_time := 0 } [] ∧
    fiveFloorElevator.doors.length = 5 := by
  exact ⟨rfl, rfl⟩

/-- C2: once a ride is claimed, no later pickup attempt touches it.  With the two
lock-serialised claim attempts run in order, elevator A's `_do_pickups` claims the
matching unclaimed ride (trip_id := A's trip); elevator B's subsequent attempt no
longer matches it — its WHERE requires `trip_id IS NULL` — so the ride keeps A's
trip_id and only one Trip ever holds it. -/
theorem C2_ride_claimed_by_exactly_one
    (stA stB : ElevatorState) (tA tB : Trip) (db db1 db2 : List Ride) (r : Ride)
    (hA : stA.trip = some tA) (hsA : tA.status = TripStatus.stopped)
    (hB : stB.trip = some tB) (hsB : tB.status = TripStatus.stopped)
    (h1 : doPickups stA db = some db1) (h2 : doPickups stB db1 = some db2)
    (hr : r ∈ db) (hm : pickupPred stA db r = true) :
    { r with trip_id := some tA.id, status := RideStatus.enroute } ∈ db1 ∧
    pickupPred stB db1 { r with trip_id := some tA.id, status := RideStatus.enroute } = false ∧
    { r with trip_id := some tA.id, status := RideStatus.enroute } ∈ db2 := by
  rw [doPickups_eq_map stA db tA hA hsA] at h1
  rw [doPickups_eq_map stB db1 tB hB hsB] at h2
  have hdb1 : db1 = db.map fun q =>
      if pickupPred stA db q then
        { q with trip_id := some tA.id, status := RideStatus.enroute }
      else q := (Option.some.inj h1).symm
  have hmem1 : { r with trip_id := some tA.id, status := RideStatus.enroute } ∈ db1 := by
    subst hdb1
    have := List.mem_map_of_mem (fun q =>
      if pickupPred stA db q then
        { q with trip_id := some tA.id, status := RideStatus.enroute }
      else q) hr
    simpa [hm] using this
  have hpredB : pickupPred stB db1
      { r with trip_id := some tA.id, status := RideStatus.enroute } = false :=
    pickupPred_eq_false_of_claimed stB db1 _ tA.id rfl
  refine ⟨hmem1, hpredB, ?_⟩
  have hdb2 : db2 = db1.map fun q =>
      if pickupPred stB db1 q then
        { q with trip_id := some tB.id, status := RideStatus.enroute }
      else q := (Option.some.inj h2).symm
  subst hdb2
  have := List.mem_map_of_mem (fun q =>
    if pickupPred stB db1 q then
      { q with trip_id := some tB.id, status := RideStatus.enroute }
    else q) hmem1
  simpa [hpredB] using this

/-- Witness for C2: both elevators docked at floor 2 race for `contestedRide`; A's
attempt claims it for trip 10 and B's attempt leaves that claim in place. -/
theorem C2_ride_claimed_by_exactly_one_witness :
    { contestedRide with trip_id := some 10, status := RideStatus.enroute } ∈
      [contestedRideClaimed] ∧
    pickupPred claimStateB [contestedRideClaimed]
      { contestedRide with trip_id := some 10, status := RideStatus.enroute } = false ∧
    { contestedRide with trip_id := some 10, status := RideStatus.enroute } ∈
      [contestedRideClaimed] :=
  C2_ride_claimed_by_exactly_one claimStateA claimStateB
    { id := 10, status := TripStatus.stopped } { id := 20, status := TripStatus.stopped }
    [contestedRide] [contestedRideClaimed] [contestedRideClaimed] contestedRide
    rfl rfl rfl rfl (by decide) (by decide) (by decide) (by decide)

/-- C3: the claimed MOVING tick contract fails twice on the code.  (i) With
`floor_time = speed_per_floor = 5` the threshold is reached, yet
`remainder = max(speed - floor_time + elapsed, 0) = 1 > 0`, so the code accumulates
to 6 instead of advancing the floor.  (ii) At the top floor (4 of 5) heading UP the
claimed clamp (force DOWN, decrement) does not fire: the code increments to floor 5
and the dock check raises IndexError. -/
theorem C3_moving_tick_contract_fails :
    runMoving fiveFloorElevator thresholdReachedState [] 1 =
      MovingOutcome.ok { thresholdReachedState with floor_time := 6 } [] ∧
    runMoving fiveFloorElevator topFloorUpState2 [] 1 =
      MovingOutcome.indexError { topFloorUpState2 with floor := 5, floor_time := 0 } [] := by
  exact ⟨rfl, rfl⟩

/-- C4: an unclaimed QUEUED ride exists (pickup 0, dropoff 3), yet the IDLE tick
changes nothing: `if pickup := ...first():` treats the fetched pickup value 0 as
falsy, so no trip is created and the elevator never wakes — contradicting the
claimed IDLE behaviour (and the spec's own end-to-end scenario with pickup 0). -/
theorem C4_idle_ignores_ground_floor_pickup :
    (oldestUnclaimed [groundFloorRide]).isSome = true ∧
    runIdle idleAtZeroState [groundFloorRide] 1 = idleAtZeroState := by
  exact ⟨rfl, rfl⟩

/-- C5: the direction invariant fails on a reachable IDLE tick: with the elevator at
floor 3 and the oldest unclaimed ride's pickup also 3, `_run_idle` sets status MOVING
with an active trip while `Direction.resolve(3, 3)` leaves `direction = NONE`. -/
theorem C5_moving_with_direction_none :
    (runIdle idleAtThreeState [samefloorRide] 7).status = Status.moving ∧
    (runIdle idleAtThreeState [samefloorRide] 7).direction = Direction.none ∧
    (runIdle idleAtThreeState [samefloorRide] 7).trip =
      some { id := 7, status := TripStatus.draft } := by
  exact ⟨rfl, rfl, rfl⟩

/-- C6: `_should_dock_to_floor` is truthy iff the elevator's door mask is nonzero at
the current floor and either (a) an unclaimed QUEUED ride waits at this floor whose
direction matches the current one whenever the trip already has ENROUTE/QUEUED
rides, or (b) an ENROUTE ride of this trip drops off here; at an inaccessible floor
it is never truthy. -/
theorem C6_dock_eligibility (e : Elevator) (st : ElevatorState) (db : List Ride)
    (tid : Nat) (htid : st.trip_id = some tid) :
    shouldDockToFloor e st db = some true ↔
      ((pyListGet e.doors st.floor).getD 0 ≠ 0 ∧
        ((∃ r ∈ db, r.trip_id = none ∧ r.status = RideStatus.queued ∧
            r.pickup = st.floor ∧
            ((∃ q ∈ db, q.trip_id = some tid ∧
                (q.status = RideStatus.enroute ∨ q.status = RideStatus.queued)) →
              r.direction = st.direction)) ∨
          (∃ r ∈ db, r.trip_id = some tid ∧ r.dropoff = some st.floor ∧
            r.status = RideStatus.enroute))) := by
  simp only [← directionFilterActive_iff tid db]
  by_cases hdfa : directionFilterActive (some tid) db = true
  · cases hpl : pyListGet e.doors st.floor with
    | none => simp [shouldDockToFloor, hpl]
    | some d =>
      by_cases hd : d = 0
      · subst hd
        simp [shouldDockToFloor, hpl]
      · simp [shouldDockToFloor, hpl, hd, hdfa, htid, List.any_eq_true,
          sqlEqId_some_iff, sqlEqFloor_iff, and_assoc, and_or_left, exists_or]
  · have hdfa0 : directionFilterActive (some tid) db = false := Bool.eq_false_iff.mpr hdfa
    cases hpl : pyListGet e.doors st.floor with
    | none => simp [shouldDockToFloor, hpl]
    | some d =>
      by_cases hd : d = 0
      · subst hd
        simp [shouldDockToFloor, hpl]
      · simp [shouldDockToFloor, hpl, hd, hdfa0, htid, List.any_eq_true,
          sqlEqId_some_iff, sqlEqFloor_iff, and_assoc, and_or_left, exists_or]

/-- Witness for C6: a fresh (empty) trip 5 moving UP at floor 1 of a 2-floor
building with an unclaimed QUEUED ride waiting there is dock-eligible. -/
theorem C6_dock_eligibility_witness :
    shouldDockToFloor twoFloorElevator movingAtOneState [waitingAtOneRide] = some true :=
  (C6_dock_eligibility twoFloorElevator movingAtOneState [waitingAtOneRide] 5 rfl).mpr
    (by decide)

/-- C7: during the DOCKED pickup step every unclaimed QUEUED ride at the current
floor whose direction matches the elevator's (the filter applying only when the
trip already has ENROUTE/QUEUED rides) is claimed for the active trip with status
ENROUTE, while an opposite-direction QUEUED ride at the same floor of a non-empty
trip is left untouched (still QUEUED, trip_id NULL). -/
theorem C7_pickup_admission
    (st : ElevatorState) (t : Trip) (db db1 : List Ride) (r : Ride)
    (ht : st.trip = some t) (hs : t.status = TripStatus.stopped)
    (hcoh : st.trip_id = some t.id)
    (h : doPickups st db = some db1) (hr : r ∈ db)
    (hu : r.trip_id = none) (hq : r.status = RideStatus.queued)
    (hp : r.pickup = st.floor) :
    (((∃ q ∈ db, q.trip_id = some t.id ∧
        (q.status = RideStatus.enroute ∨ q.status = RideStatus.queued)) →
          r.direction = st.direction) →
      { r with trip_id := some t.id, status := RideStatus.enroute } ∈ db1) ∧
    ((∃ q ∈ db, q.trip_id = some t.id ∧
        (q.status = RideStatus.enroute ∨ q.status = RideStatus.queued)) →
      r.direction ≠ st.direction → r ∈ db1) := by
  rw [doPickups_eq_map st db t ht hs] at h
  have hdb1 : db1 = db.map fun q =>
      if pickupPred st db q then
        { q with trip_id := some t.id, status := RideStatus.enroute }
      else q := (Option.some.inj h).symm
  subst hdb1
  constructor
  · intro hdir
    have hpred : pickupPred st db r = true := by
      by_cases hdfa : directionFilterActive st.trip_id db = true
      · have hx : r.direction = st.direction := by
          apply hdir
          rw [hcoh] at hdfa
          exact (directionFilterActive_iff t.id db).mp hdfa
        simp [pickupPred, hu, hq, hp, hx]
      · have hdfa0 : directionFilterActive st.trip_id db = false :=
          Bool.eq_false_iff.mpr hdfa
        simp [pickupPred, hu, hq, hp, hdfa0]
    have := List.mem_map_of_mem (fun q =>
      if pickupPred st db q then
        { q with trip_id := some t.id, status := RideStatus.enroute }
      else q) hr
    simpa [hpred] using this
  · intro hne hdir
    have hdfa : directionFilterActive st.trip_id db = true := by
      rw [hcoh]
      exact (directionFilterActive_iff t.id db).mpr hne
    have hpred : pickupPred st db r = false := by
      simp [pickupPred, hdfa, hdir]
    have := List.mem_map_of_mem (fun q =>
      if pickupPred st db q then
        { q with trip_id := some t.id, status := RideStatus.enroute }
      else q) hr
    simpa [hpred] using this

/-- Witness for C7: trip 5 already carries `aboardRide` (UP), so the UP-bound
`sameDirRide` waiting at the docked floor 2 is admitted into the trip. -/
theorem C7_pickup_admission_witness :
    { sameDirRide with trip_id := some 5, status := RideStatus.enroute } ∈
      [aboardRide, { sameDirRide with trip_id := some 5, status := RideStatus.enroute }] :=
  (C7_pickup_admission dockedAtTwoState { id := 5, status := TripStatus.stopped }
      [aboardRide, sameDirRide]
      [aboardRide, { sameDirRide with trip_id := some 5, status := RideStatus.enroute }]
      sameDirRide rfl rfl rfl (by decide) (by decide) rfl rfl rfl).1
    (fun _ => rfl)

/-- C8: during the DOCKED dropoff step every ENROUTE ride of the active trip whose
dropoff is the current floor becomes ARRIVED; every other ride is untouched; and a
MOVING tick never mutates any ride row. -/
theorem C8_dropoff_marks_arrived
    (st : ElevatorState) (t : Trip) (db db1 : List Ride) (r : Ride)
    (ht : st.trip = some t) (hs : t.status = TripStatus.stopped)
    (hcoh : st.trip_id = some t.id)
    (h : doDropoffs st db = some db1) (hr : r ∈ db) :
    (r.trip_id = some t.id → r.status = RideStatus.enroute → r.dropoff = some st.floor →
      { r with status := RideStatus.arrived } ∈ db1) ∧
    (¬(r.trip_id = some t.id ∧ r.status = RideStatus.enroute ∧
        r.dropoff = some st.floor) → r ∈ db1) ∧
    (∀ (e : Elevator) (elapsed : Int), (runMoving e st db elapsed).rides = db) := by
  rw [doDropoffs_eq_map st db t ht hs] at h
  have hdb1 : db1 = db.map fun q =>
      if dropoffPred st q then { q with status := RideStatus.arrived } else q :=
    (Option.some.inj h).symm
  subst hdb1
  refine ⟨?_, ?_, fun e elapsed => runMoving_rides e st db elapsed⟩
  · intro h1 h2 h3
    have hpred : dropoffPred st r = true :=
      (dropoffPred_iff st r t hcoh).mpr ⟨h1, h3, h2⟩
    have := List.mem_map_of_mem (fun q =>
      if dropoffPred st q then { q with status := RideStatus.arrived } else q) hr
    simpa [hpred] using this
  · intro hno
    have hpred : dropoffPred st r = false := by
      apply Bool.eq_false_iff.mpr
      intro hp
      rcases (dropoffPred_iff st r t hcoh).mp hp with ⟨h1, h2, h3⟩
      exact hno ⟨h1, h3, h2⟩
    have := List.mem_map_of_mem (fun q =>
      if dropoffPred st q then { q with status := RideStatus.arrived } else q) hr
    simpa [hpred] using this

/-- Witness for C8: `arrivingRide` (ENROUTE on trip 5, dropoff 4) becomes ARRIVED
when the elevator services its dock at floor 4. -/
theorem C8_dropoff_marks_arrived_witness :
    { arrivingRide with status := RideStatus.arrived } ∈
      [{ arrivingRide with status := RideStatus.arrived }] :=
  (C8_dropoff_marks_arrived dockedAtFourState { id := 5, status := TripStatus.stopped }
      [arrivingRide] [{ arrivingRide with status := RideStatus.arrived }]
      arrivingRide rfl rfl rfl (by decide) (by decide)).1 rfl rfl rfl

/-- C9: ride creation diverges from the claim.  `Direction.resolve` behaves as
claimed on 3/5, 5/3 and 4/4, but `create_ride` raises for pickup 3, dropoff 0 —
`dropoff or pickup` treats the falsy floor 0 as missing, resolving NONE — even
though pickup ≠ dropoff and the resolved direction would be DOWN. -/
theorem C9_create_ride_rejects_valid_ground_floor_dropoff :
    Direction.resolve 3 5 = Direction.up ∧
    Direction.resolve 5 3 = Direction.down ∧
    Direction.resolve 4 4 = Direction.none ∧
    Direction.resolve 3 0 = Direction.down ∧
    create_ride 3 (some 0) none = Except.error "Invalid destination" := by
  exact ⟨rfl, rfl, rfl, rfl, rfl⟩

/-- C10: the `_run_docked` handler only dispatches `_do_dropoffs`/`_do_pickups`
after setting the (non-null) trip's status to STOPPED, so the helpers' assertion
`assert trip and trip.status is TripStatus.STOPPED` can never fail. -/
theorem C10_docked_assert_never_fails (e : Elevator) (st : ElevatorState)
    (db : List Ride) (elapsed : Int) :
    (runDocked e st db elapsed).isAssertError = false := by
  cases h : st.trip with
  | none => simp [runDocked, h, DockedOutcome.isAssertError]
  | some trip =>
    cases trip with
    | mk tid tstatus =>
      cases tstatus <;>
        simp [runDocked, h, doDropoffs, doPickups, DockedOutcome.isAssertError]

end ElevatorApp
